import Mathlib

/-!
Verification development for the shopping-platform backend: a shallow
embedding of the repository source (chat API views, serializers and models,
the linear SQL-answering engine, the product catalog, its admin filters and
its seeding command), with theorems settling the specification claims.
-/

set_option maxRecDepth 4096

/-
Section 1: the linear SQL-answering engine, from
src/chatapi/services/llm_langgraph.py.

External calls (the LLM invocations of write_query and generate_answer, and
the database execution of execute_query) are modelled by an oracle recording
the outcome of each call for the run: a generated value, or a raised
exception / malformed output.
-/

/-- Outcomes of the external calls one engine run makes.  For the two LLM
stages, `none` means the call raised or produced output without the expected
field; for SQL execution, `Except.error e` means the call raised with message
`e`. -/
structure LLMOracle where
  genQuery : String → Option String
  execQuery : String → Except String String
  genAnswer : String → String → String → Option String

/-- The langgraph `State` TypedDict of the workflow.  At run time it is a
dict that may lack keys (the initial state holds only `question`); a field
valued `none` models an absent key. -/
structure WorkflowState where
  question : Option String := none
  query : Option String := none
  sql_result : Option String := none
  answer : Option String := none
deriving DecidableEq, Repr

/-- A Python value as returned by `SQLQuerySystem.query`: a string, a dict,
or None. -/
inductive PyVal where
  | str (s : String)
  | dict (fields : List (String × PyVal))
  | pynone

/-- Dict lookup on a `PyVal`. -/
def PyVal.get : PyVal → String → Option PyVal
  | .dict fs, k => (fs.find? (fun f => f.fst == k)).map (fun f => f.snd)
  | _, _ => Option.none

namespace SQLQuerySystem

/-- Merging a node update into the langgraph state: keys present in the
update override the current state, others are kept. -/
def mergeUpdate (s u : WorkflowState) : WorkflowState where
  question := match u.question with | some v => some v | none => s.question
  query := match u.query with | some v => some v | none => s.query
  sql_result := match u.sql_result with | some v => some v | none => s.sql_result
  answer := match u.answer with | some v => some v | none => s.answer

/-- Stage 1, `SQLQuerySystem.write_query`: ask the LLM for a structured
{query} output; on any failure inside the try block (LLM error, missing
`query` key, or even an absent `question` key) fall back to the literal
query `SELECT 1;`.  Returns the partial state update of the node. -/
def write_query (o : LLMOracle) (state : WorkflowState) : WorkflowState :=
  match state.question with
  | some q =>
    match o.genQuery q with
    | some sql => { query := some sql }
    | none => { query := some "SELECT 1;" }
  | none => { query := some "SELECT 1;" }

/-- Stage 2, `SQLQuerySystem.execute_query`: run the generated query; on an
execution exception substitute the textual result
`Error executing query: <message>`.  An absent `query` key would raise
KeyError inside the same try block, whose message is the quoted key name. -/
def execute_query (o : LLMOracle) (state : WorkflowState) : WorkflowState :=
  match state.query with
  | some q =>
    match o.execQuery q with
    | .ok r => { sql_result := some r }
    | .error e => { sql_result := some ("Error executing query: " ++ e) }
  | none => { sql_result := some ("Error executing query: " ++ "\x27query\x27") }

/-- The fixed apology string substituted when answer generation fails. -/
def apology : String :=
  "I apologize, but I encountered an error while generating the answer."

/-- Stage 3, `SQLQuerySystem.generate_answer`: ask the LLM for a reply from
question, query and result; on any failure inside the try block (LLM error,
or an absent key raising KeyError) substitute the fixed apology string. -/
def generate_answer (o : LLMOracle) (state : WorkflowState) : WorkflowState :=
  match state.question, state.query, state.sql_result with
  | some qn, some q, some r =>
    match o.genAnswer qn q r with
    | some a => { answer := some a }
    | none => { answer := some apology }
  | _, _, _ => { answer := some apology }

/-- The compiled graph is the fixed sequence
write_query, execute_query, generate_answer. -/
def initialState (question : String) : WorkflowState :=
  { question := some question }

/-- `graph.invoke`: run the three nodes in sequence, merging each update
into the state, and return the final merged state. -/
def graphInvoke (o : LLMOracle) (question : String) : WorkflowState :=
  let s0 := initialState question
  let s1 := mergeUpdate s0 (write_query o s0)
  let s2 := mergeUpdate s1 (execute_query o s1)
  mergeUpdate s2 (generate_answer o s2)

/-- `graph.stream(initial_state, stream_mode="updates")`: yields, per node
in sequence, the pair of the node name and that node's partial update (not
the accumulated state). -/
def graphStream (o : LLMOracle) (question : String) :
    List (String × WorkflowState) :=
  let s0 := initialState question
  let u1 := write_query o s0
  let s1 := mergeUpdate s0 u1
  let u2 := execute_query o s1
  let s2 := mergeUpdate s1 u2
  let u3 := generate_answer o s2
  [("write_query", u1), ("execute_query", u2), ("generate_answer", u3)]

/-- Rendering a workflow state as the Python dict langgraph returns: only
the keys actually set are present. -/
def WorkflowState.toPy (s : WorkflowState) : PyVal :=
  .dict ((match s.question with | some v => [("question", PyVal.str v)] | none => [])
    ++ (match s.query with | some v => [("query", PyVal.str v)] | none => [])
    ++ (match s.sql_result with | some v => [("sql_result", PyVal.str v)] | none => [])
    ++ (match s.answer with | some v => [("answer", PyVal.str v)] | none => []))

/-- One step yielded by the updates-mode stream, as the Python dict
mapping the node name to its partial update. -/
def stepToPy (step : String × WorkflowState) : PyVal :=
  .dict [(step.fst, WorkflowState.toPy step.snd)]

/-- `SQLQuerySystem.query(question, stream)`.  Without streaming it returns
`graph.invoke` on the initial state.  With streaming it iterates the
updates-mode stream keeping the last yielded step in `final_state` and
returns that (None if the stream yielded nothing). -/
def query (o : LLMOracle) (question : String) (stream : Bool) : PyVal :=
  if stream then
    match (graphStream o question).getLast? with
    | some step => stepToPy step
    | none => PyVal.pynone
  else
    WorkflowState.toPy (graphInvoke o question)

end SQLQuerySystem

/-
Section 2: chat persistence, from src/chatapi/models.py.

UUIDs and timestamps are modelled as naturals; a database is the list of
session rows and the list of message rows in insertion order.  Message
creation timestamps come from a monotone clock, so insertion order is
chronological order.
-/

/-- A `ChatSession` row: uuid primary key, owning user, optional title
(empty until set), creation and update timestamps. -/
structure ChatSessionRow where
  id : Nat
  user : Nat
  title : String
  created_at : Nat
  updated_at : Nat
deriving DecidableEq, Repr

/-- A `ChatMessage` row: parent session, type (user or assistant), content,
the optional SQL fields, creation timestamp. -/
structure ChatMessageRow where
  id : Nat
  session : Nat
  message_type : String
  content : String
  generated_sql : String
  sql_result : String
  created_at : Nat
deriving DecidableEq, Repr

/-- The chat tables plus the id generator and the clock of the modelled
process. -/
structure ChatDb where
  sessions : List ChatSessionRow
  messages : List ChatMessageRow
  nextId : Nat
  now : Nat
deriving DecidableEq, Repr

namespace ChatMessage

/-- `ChatMessage.save`: persist the message (insert when the primary key is
fresh, else update in place), then set the parent session updated-timestamp
to the current time and save it with update_fields restricted to that
column. -/
def save (msg : ChatMessageRow) (now : Nat) (db : ChatDb) : ChatDb :=
  { db with
    messages :=
      if db.messages.any (fun m => m.id == msg.id) then
        db.messages.map (fun m => if m.id == msg.id then msg else m)
      else
        db.messages ++ [msg]
    sessions := db.sessions.map (fun s =>
      if s.id == msg.session then { s with updated_at := now } else s) }

end ChatMessage

/-- The `ChatSession` default ordering declared in Meta: newest
updated-timestamp first. -/
def ChatSession.defaultOrdering (sessions : List ChatSessionRow) :
    List ChatSessionRow :=
  sessions.mergeSort (fun a b => decide (b.updated_at ≤ a.updated_at))

/-
Section 3: the process-request serializer, from src/chatapi/serializers.py.
-/

/-- The raw JSON value supplied for the `chat_id` field of a process
request: missing, explicit null, a valid UUID (modelled by its id), or a
value that does not parse as a UUID. -/
inductive RawUUIDField where
  | absent
  | null
  | val (id : Nat)
  | malformed
deriving DecidableEq, Repr

/-- The raw JSON value supplied for the `message` field: missing or a
string. -/
inductive RawCharField where
  | absent
  | str (s : String)
deriving DecidableEq, Repr

/-- The body of a process-chat-message request. -/
structure RawProcessRequest where
  chat_id : RawUUIDField
  message : RawCharField
deriving DecidableEq, Repr

/-- The validated data of `ChatProcessRequestSerializer`. -/
structure ValidatedProcessRequest where
  chat_id : Option Nat
  message : String
deriving DecidableEq, Repr

namespace ChatProcessRequestSerializer

/-- `chat_id = UUIDField(required=False, allow_null=True)`: absence and
explicit null both validate to no value; a malformed UUID is a validation
error. -/
def validateChatId : RawUUIDField → Except String (Option Nat)
  | .absent => .ok none
  | .null => .ok none
  | .val i => .ok (some i)
  | .malformed => .error "Must be a valid UUID."

/-- `message = CharField()`: required, and blank input is invalid by
default. -/
def validateMessage : RawCharField → Except String String
  | .absent => .error "This field is required."
  | .str s => if s = "" then .error "This field may not be blank." else .ok s

/-- Whole-body validation, as run by `is_valid(raise_exception=True)`. -/
def validate (r : RawProcessRequest) : Except String ValidatedProcessRequest := do
  let c ← validateChatId r.chat_id
  let m ← validateMessage r.message
  return { chat_id := c, message := m }

end ChatProcessRequestSerializer

/-
Section 4: the chat HTTP handlers, from src/chatapi/views.py.
-/

/-- One entry of the conversation history handed to the LLM context. -/
structure HistEntry where
  role : String
  content : String
deriving DecidableEq, Repr

/-- The body of a successful process-chat-message response. -/
structure ProcessOk where
  chat_id : Nat
  answer : String
  created_new_chat : Bool
deriving DecidableEq, Repr

/-- The possible responses of the process-chat-message endpoint: 200 with
the result body, 400 from serializer validation, 404 with an error message
when the session cannot be resolved. -/
inductive PostResponse where
  | ok (r : ProcessOk)
  | badRequest
  | notFound (error : String)
deriving DecidableEq, Repr

namespace ProcessChatMessageView

/-- `_get_or_create_chat_session`: with an identifier, look the session up
by id and owner together, failing as ValueError (mapped to 404 by the
handler) when no such row exists; without one, create a fresh session owned
by the caller and report it as newly created. -/
def getOrCreateChatSession (chatId : Option Nat) (user : Nat) (db : ChatDb) :
    Except String (ChatSessionRow × Bool × ChatDb) :=
  match chatId with
  | some cid =>
    match db.sessions.find? (fun s => s.id == cid && s.user == user) with
    | some s => .ok (s, false, db)
    | none => .error "Chat session not found"
  | none =>
    let s : ChatSessionRow :=
      { id := db.nextId, user := user, title := "",
        created_at := db.now, updated_at := db.now }
    .ok (s, true,
      { db with sessions := db.sessions ++ [s], nextId := db.nextId + 1 })

/-- `_get_conversation_history`: all messages of the session ordered by
creation time (insertion order in this model), each rendered as a role plus
content, the role being Human for user messages and Assistant otherwise. -/
def getConversationHistory (db : ChatDb) (sessionId : Nat) : List HistEntry :=
  (db.messages.filter (fun m => m.session == sessionId)).map (fun m =>
    { role := if m.message_type == "user" then "Human" else "Assistant",
      content := m.content })

/-- `_format_message_with_history`: with no history, the raw current
message; otherwise the context header, the last twenty history entries
(Python slice [-20:], i.e. drop all but the final twenty), a blank line,
the current-question header and the message, joined by newlines. -/
def formatMessageWithHistory (currentMessage : String)
    (conversationHistory : List HistEntry) : String :=
  if conversationHistory.isEmpty then currentMessage
  else
    let contextParts := ["Previous conversation context:"]
    let recentHistory :=
      conversationHistory.drop (conversationHistory.length - 20)
    let contextParts := contextParts ++
      recentHistory.map (fun m => m.role ++ ": " ++ m.content)
    let contextParts := contextParts ++ ["", "Current question:", currentMessage]
    String.intercalate "\n" contextParts

/-- `_process_with_llm_and_history`: format the message with its history and
run the linear engine without streaming (`query(..., stream=False)` is
`graph.invoke`; the embedded engine is total, so the broad except branch of
this method cannot fire and is not represented). -/
def processWithLlmAndHistory (o : LLMOracle) (messageContent : String)
    (conversationHistory : List HistEntry) : WorkflowState :=
  SQLQuerySystem.graphInvoke o
    (formatMessageWithHistory messageContent conversationHistory)

/-- `_generate_chat_title`: the first message truncated to fifty characters,
with an appended ellipsis when it was longer. -/
def generateChatTitle (firstMessage : String) : String :=
  if firstMessage.length > 50 then firstMessage.take 50 ++ "..." else firstMessage

/-- Set a session title (a save with update_fields restricted to the title
column, which does not re-stamp the updated timestamp). -/
def setSessionTitle (db : ChatDb) (sessionId : Nat) (title : String) : ChatDb :=
  { db with sessions := db.sessions.map (fun s =>
      if s.id == sessionId then { s with title := title } else s) }

/-- The `post` handler: validate, resolve the session, collect history,
persist the user message, run the engine, persist the assistant message
(missing engine fields defaulting per `llm_result.get`), set a title for a
newly created untitled session, and respond.  The returned boolean records
whether the LLM engine was invoked during the request. -/
def post (o : LLMOracle) (user : Nat) (req : RawProcessRequest) (db : ChatDb) :
    PostResponse × ChatDb × Bool :=
  match ChatProcessRequestSerializer.validate req with
  | .error _ => (.badRequest, db, false)
  | .ok v =>
    match getOrCreateChatSession v.chat_id user db with
    | .error e => (.notFound e, db, false)
    | .ok (chatSession, createdNewChat, db1) =>
      let conversationHistory := getConversationHistory db1 chatSession.id
      let userMessage : ChatMessageRow :=
        { id := db1.nextId, session := chatSession.id, message_type := "user",
          content := v.message, generated_sql := "", sql_result := "",
          created_at := db1.now }
      let db2 := { ChatMessage.save userMessage db1.now db1 with
        nextId := db1.nextId + 1 }
      let llmResult := processWithLlmAndHistory o v.message conversationHistory
      let assistantMessage : ChatMessageRow :=
        { id := db2.nextId, session := chatSession.id,
          message_type := "assistant",
          content := llmResult.answer.getD "No response generated",
          generated_sql := llmResult.query.getD "",
          sql_result := llmResult.sql_result.getD "",
          created_at := db2.now }
      let db3 := { ChatMessage.save assistantMessage db2.now db2 with
        nextId := db2.nextId + 1 }
      let db4 :=
        if createdNewChat && chatSession.title == "" then
          setSessionTitle db3 chatSession.id (generateChatTitle v.message)
        else db3
      (.ok { chat_id := chatSession.id, answer := assistantMessage.content,
             created_new_chat := createdNewChat }, db4, true)

end ProcessChatMessageView

/-- `ChatSessionDetailView`: retrieve by id from the queryset filtered to
the callers own sessions, together with the session messages; `none` is the
not-found response, which carries no session or message data. -/
def ChatSessionDetailView.retrieve (db : ChatDb) (user : Nat) (sid : Nat) :
    Option (ChatSessionRow × List ChatMessageRow) :=
  match (db.sessions.filter (fun s => s.user == user)).find?
      (fun s => s.id == sid) with
  | some s => some (s, db.messages.filter (fun m => m.session == sid))
  | none => none

/-
Section 5: the product catalog, from src/products/models.py.

Prices (fixed-point decimals) and ratings (floats, here all carrying at
most one fractional digit) are modelled as rationals.  Foreign keys are
modelled by the referenced natural key (the brand or category slug).  The
free-text tags, description, logo and active-flag columns are carried by no
operation a claim mentions and are omitted from the row model.
-/

/-- A `Category` row. -/
structure CategoryRow where
  name : String
  slug : String
  description : String
deriving DecidableEq, Repr

/-- A `Brand` row. -/
structure BrandRow where
  name : String
  slug : String
  website : String
deriving DecidableEq, Repr

/-- A `Product` row. -/
structure ProductRow where
  name : String
  brand : String
  category : String
  price : ℚ
  stock : Nat
  rating : ℚ
  sku : String
deriving DecidableEq, Repr

/-- The catalog tables. -/
structure CatalogDb where
  categories : List CategoryRow
  brands : List BrandRow
  products : List ProductRow
deriving DecidableEq, Repr

namespace Product

/-- The validators declared on `Product.rating`:
`MinValueValidator(0)` and `MaxValueValidator(5)`. -/
def validateRating (r : ℚ) : Except String Unit :=
  if r < 0 then .error "Ensure this value is greater than or equal to 0."
  else if 5 < r then .error "Ensure this value is less than or equal to 5."
  else .ok ()

/-- A validated write of a product row: run the declared field validators
(as `full_clean` does on every model-form driven write) and persist only
when they pass. -/
def validatedSave (db : List ProductRow) (p : ProductRow) :
    Except String (List ProductRow) :=
  match validateRating p.rating with
  | .ok _ => .ok (db ++ [p])
  | .error e => .error e

end Product

/-
Section 6: the admin rating-level filter, from src/products/admin.py.
-/

/-- `ProductAdmin.RatingFilter.queryset`: the value-driven chain of rating
range filters; an unrecognised value falls through to the implicit None
(no filtering applied). -/
def RatingFilter.queryset (value : String) (queryset : List ProductRow) :
    Option (List ProductRow) :=
  if value = "excellent" then
    some (queryset.filter (fun p => decide (4.5 ≤ p.rating)))
  else if value = "good" then
    some (queryset.filter (fun p => decide (3.5 ≤ p.rating) && decide (p.rating < 4.5)))
  else if value = "average" then
    some (queryset.filter (fun p => decide (2.5 ≤ p.rating) && decide (p.rating < 3.5)))
  else if value = "poor" then
    some (queryset.filter (fun p => decide (0 < p.rating) && decide (p.rating < 2.5)))
  else if value = "unrated" then
    some (queryset.filter (fun p => decide (p.rating = 0)))
  else none

/-- A one-field probe product used to express what the filter classifies:
a product whose rating is the given value.  Chosen arbitrary in every other
column, which the filter never reads. -/
def probeProduct (r : ℚ) : ProductRow :=
  { name := "probe", brand := "b", category := "c", price := 0, stock := 0,
    rating := r, sku := "probe-sku" }

/-- A rating value matches a filter level when the probe product carrying it
survives that level of the filter. -/
def ratingLevelMatches (value : String) (r : ℚ) : Prop :=
  match RatingFilter.queryset value [probeProduct r] with
  | some qs => probeProduct r ∈ qs
  | none => False

/-
Section 7: the seeding command, from
src/products/management/commands/seed_products.py.
-/

/-- One entry of the literal product fixture: the brand and category are
referenced by display name and resolved through the lookup tables the
command builds. -/
structure ProductSeed where
  name : String
  brand : String
  category : String
  price : ℚ
  stock : Nat
  rating : ℚ
  sku : String
deriving DecidableEq, Repr

namespace SeedProducts

/-- `Category.objects.get_or_create(slug=..., defaults=...)`. -/
def categoryGetOrCreate (db : CatalogDb) (slug : String)
    (defaults : CategoryRow) : CategoryRow × Bool × CatalogDb :=
  match db.categories.find? (fun c => c.slug == slug) with
  | some c => (c, false, db)
  | none => (defaults, true, { db with categories := db.categories ++ [defaults] })

/-- `Brand.objects.get_or_create(slug=..., defaults=...)`. -/
def brandGetOrCreate (db : CatalogDb) (slug : String)
    (defaults : BrandRow) : BrandRow × Bool × CatalogDb :=
  match db.brands.find? (fun b => b.slug == slug) with
  | some b => (b, false, db)
  | none => (defaults, true, { db with brands := db.brands ++ [defaults] })

/-- `Product.objects.get_or_create(sku=..., defaults=...)`. -/
def productGetOrCreate (db : CatalogDb) (sku : String)
    (defaults : ProductRow) : ProductRow × Bool × CatalogDb :=
  match db.products.find? (fun p => p.sku == sku) with
  | some p => (p, false, db)
  | none => (defaults, true, { db with products := db.products ++ [defaults] })

/-- The three fixed categories of the fixture. -/
def categoriesData : List CategoryRow :=
  [ { name := "Electronics", slug := "electronics",
      description := "Electronic devices and gadgets including smartphones, laptops, and accessories." },
    { name := "Clothing", slug := "clothing",
      description := "Fashion and apparel for men, women, and children." },
    { name := "Home & Garden", slug := "home-garden",
      description := "Home improvement, furniture, and garden supplies." } ]

/-- The eleven fixed brands of the fixture. -/
def brandsData : List BrandRow :=
  [ { name := "Apple", slug := "apple", website := "https://apple.com" },
    { name := "Samsung", slug := "samsung", website := "https://samsung.com" },
    { name := "Sony", slug := "sony", website := "https://sony.com" },
    { name := "Dell", slug := "dell", website := "https://dell.com" },
    { name := "Nike", slug := "nike", website := "https://nike.com" },
    { name := "Adidas", slug := "adidas", website := "https://adidas.com" },
    { name := "Zara", slug := "zara", website := "https://zara.com" },
    { name := "H&M", slug := "hm", website := "https://hm.com" },
    { name := "IKEA", slug := "ikea", website := "https://ikea.com" },
    { name := "Home Depot", slug := "home-depot", website := "https://homedepot.com" },
    { name := "Wayfair", slug := "wayfair", website := "https://wayfair.com" } ]

/-- The thirty fixed products of the fixture (ten per category). -/
def productsData : List ProductSeed :=
  [ { name := "iPhone 15 Pro", brand := "Apple", category := "Electronics",
      price := 999.99, stock := 50, rating := 4.7, sku := "APL-IPH15P-001" },
    { name := "MacBook Air M3", brand := "Apple", category := "Electronics",
      price := 1299.99, stock := 25, rating := 4.8, sku := "APL-MBA-M3-001" },
    { name := "Galaxy S24 Ultra", brand := "Samsung", category := "Electronics",
      price := 1199.99, stock := 35, rating := 4.6, sku := "SAM-GS24U-001" },
    { name := "PlayStation 5", brand := "Sony", category := "Electronics",
      price := 499.99, stock := 15, rating := 4.5, sku := "SNY-PS5-001" },
    { name := "WH-1000XM5 Headphones", brand := "Sony", category := "Electronics",
      price := 399.99, stock := 40, rating := 4.4, sku := "SNY-WH1000XM5-001" },
    { name := "XPS 13 Laptop", brand := "Dell", category := "Electronics",
      price := 899.99, stock := 20, rating := 4.3, sku := "DEL-XPS13-001" },
    { name := "Galaxy Buds Pro 3", brand := "Samsung", category := "Electronics",
      price := 249.99, stock := 60, rating := 4.2, sku := "SAM-GBP3-001" },
    { name := "iPad Air M2", brand := "Apple", category := "Electronics",
      price := 599.99, stock := 30, rating := 4.6, sku := "APL-IPA-M2-001" },
    { name := "65\" OLED TV", brand := "Sony", category := "Electronics",
      price := 1799.99, stock := 8, rating := 4.7, sku := "SNY-OLED65-001" },
    { name := "Alienware Gaming Laptop", brand := "Dell", category := "Electronics",
      price := 2299.99, stock := 12, rating := 4.4, sku := "DEL-ALW-001" },
    { name := "Air Jordan 1 Retro High", brand := "Nike", category := "Clothing",
      price := 169.99, stock := 45, rating := 4.5, sku := "NIK-AJ1R-001" },
    { name := "Ultraboost 23 Running Shoes", brand := "Adidas", category := "Clothing",
      price := 189.99, stock := 55, rating := 4.3, sku := "ADI-UB23-001" },
    { name := "Oversized Blazer", brand := "Zara", category := "Clothing",
      price := 79.99, stock := 25, rating := 4.1, sku := "ZAR-OBL-001" },
    { name := "Conscious Cotton T-Shirt", brand := "H&M", category := "Clothing",
      price := 12.99, stock := 100, rating := 3.9, sku := "HM-CCT-001" },
    { name := "Tech Fleece Hoodie", brand := "Nike", category := "Clothing",
      price := 89.99, stock := 35, rating := 4.4, sku := "NIK-TFH-001" },
    { name := "Stan Smith Sneakers", brand := "Adidas", category := "Clothing",
      price := 79.99, stock := 70, rating := 4.6, sku := "ADI-SS-001" },
    { name := "Midi Wrap Dress", brand := "Zara", category := "Clothing",
      price := 49.99, stock := 30, rating := 4.2, sku := "ZAR-MWD-001" },
    { name := "Organic Cotton Jeans", brand := "H&M", category := "Clothing",
      price := 39.99, stock := 65, rating := 4.0, sku := "HM-OCJ-001" },
    { name := "Dri-FIT Training Shorts", brand := "Nike", category := "Clothing",
      price := 34.99, stock := 80, rating := 4.3, sku := "NIK-DFT-001" },
    { name := "Firebird Track Jacket", brand := "Adidas", category := "Clothing",
      price := 69.99, stock := 40, rating := 4.5, sku := "ADI-FTJ-001" },
    { name := "HEMNES Bed Frame", brand := "IKEA", category := "Home & Garden",
      price := 199.99, stock := 15, rating := 4.2, sku := "IKE-HEM-BF-001" },
    { name := "KLIPPAN Loveseat Sofa", brand := "IKEA", category := "Home & Garden",
      price := 249.99, stock := 12, rating := 4.0, sku := "IKE-KLP-LS-001" },
    { name := "Cordless Drill Set", brand := "Home Depot", category := "Home & Garden",
      price := 89.99, stock := 22, rating := 4.4, sku := "HD-CDS-001" },
    { name := "6-Tier Storage Rack", brand := "Wayfair", category := "Home & Garden",
      price := 129.99, stock := 18, rating := 4.1, sku := "WAY-6TSR-001" },
    { name := "Garden Hose 50ft", brand := "Home Depot", category := "Home & Garden",
      price := 34.99, stock := 45, rating := 4.2, sku := "HD-GH50-001" },
    { name := "FRIHETEN Corner Sofa-Bed", brand := "IKEA", category := "Home & Garden",
      price := 449.99, stock := 8, rating := 4.3, sku := "IKE-FRI-CSB-001" },
    { name := "Upholstered Dining Chair Set", brand := "Wayfair", category := "Home & Garden",
      price := 189.99, stock := 20, rating := 4.0, sku := "WAY-UDC-SET-001" },
    { name := "LED Work Light", brand := "Home Depot", category := "Home & Garden",
      price := 29.99, stock := 35, rating := 4.1, sku := "HD-LWL-001" },
    { name := "Bamboo Coffee Table", brand := "Wayfair", category := "Home & Garden",
      price := 159.99, stock := 14, rating := 4.2, sku := "WAY-BCT-001" },
    { name := "MALM Desk with Drawer", brand := "IKEA", category := "Home & Garden",
      price := 119.99, stock := 25, rating := 4.3, sku := "IKE-MAL-DWD-001" } ]

/-- `Command.handle`: optionally clear all three tables, then, in one
transaction, get-or-create each category by slug, each brand by slug, build
the name-keyed lookup dicts from the collected rows (names are unique
columns), and get-or-create each product by SKU, skipping entries whose
brand or category name resolves to nothing. -/
def handle (clear : Bool) (db0 : CatalogDb) : CatalogDb :=
  let db := if clear then { categories := [], brands := [], products := [] } else db0
  let catsStep := categoriesData.foldl
    (fun (acc : List CategoryRow × CatalogDb) catData =>
      let r := categoryGetOrCreate acc.2 catData.slug catData
      (acc.1 ++ [r.1], r.2.2)) ([], db)
  let categories := catsStep.1
  let brandsStep := brandsData.foldl
    (fun (acc : List BrandRow × CatalogDb) brandData =>
      let r := brandGetOrCreate acc.2 brandData.slug brandData
      (acc.1 ++ [r.1], r.2.2)) ([], catsStep.2)
  let brands := brandsStep.1
  let brandLookup := fun (n : String) => brands.find? (fun b => b.name == n)
  let categoryLookup := fun (n : String) => categories.find? (fun c => c.name == n)
  productsData.foldl
    (fun (dbAcc : CatalogDb) productData =>
      match brandLookup productData.brand, categoryLookup productData.category with
      | some b, some c =>
        let clean : ProductRow :=
          { name := productData.name, brand := b.slug, category := c.slug,
            price := productData.price, stock := productData.stock,
            rating := productData.rating, sku := productData.sku }
        (productGetOrCreate dbAcc productData.sku clean).2.2
      | _, _ => dbAcc) brandsStep.2

/-- The empty catalog the twice-equals-once claim seeds into. -/
def emptyCatalog : CatalogDb := { categories := [], brands := [], products := [] }

end SeedProducts

/-
Section 8: concrete external-world instances used by witnesses and
counterexamples.
-/

/-- An external world in which every call raises: the LLM errors on query
generation and on answer generation, and SQL execution raises with message
boom. -/
def failOracle : LLMOracle where
  genQuery := fun _ => none
  execQuery := fun _ => .error "boom"
  genAnswer := fun _ _ _ => none

/-- An external world in which every call succeeds but the reply content
the LLM returns is the empty string. -/
def emptyReplyOracle : LLMOracle where
  genQuery := fun _ => some "SELECT 1;"
  execQuery := fun _ => .ok "result"
  genAnswer := fun _ _ _ => some ""

/-- An external world in which every call succeeds with fixed contents. -/
def okOracle : LLMOracle where
  genQuery := fun _ => some "SELECT 1;"
  execQuery := fun _ => .ok "result"
  genAnswer := fun _ _ _ => some "ans"

/-
Derived views of one engine run, used to state what the pipeline produces:
the query that reaches execution, the textual result that reaches answer
generation, and the final answer.
-/

/-- The query value the pipeline executes: the generated one, or the
fallback literal. -/
def SQLQuerySystem.executedQuery (o : LLMOracle) (q : String) : String :=
  match o.genQuery q with
  | some sql => sql
  | none => "SELECT 1;"

/-- The textual result the pipeline hands to answer generation. -/
def SQLQuerySystem.executedResult (o : LLMOracle) (q : String) : String :=
  match o.execQuery (SQLQuerySystem.executedQuery o q) with
  | .ok r => r
  | .error e => "Error executing query: " ++ e

/-- The answer the pipeline ends with. -/
def SQLQuerySystem.finalAnswer (o : LLMOracle) (q : String) : String :=
  match o.genAnswer q (SQLQuerySystem.executedQuery o q)
      (SQLQuerySystem.executedResult o q) with
  | some a => a
  | none => SQLQuerySystem.apology

/-- A two-message chat fixture: one user and one assistant message in
session seven. -/
def c2Db : ChatDb where
  sessions := []
  messages :=
    [{ id := 1, session := 7, message_type := "user", content := "hello",
       generated_sql := "", sql_result := "", created_at := 0 },
     { id := 2, session := 7, message_type := "assistant", content := "hi",
       generated_sql := "", sql_result := "", created_at := 1 }]
  nextId := 3
  now := 2

/-- A one-session fixture: session nine owned by user two, no messages. -/
def c3Db : ChatDb where
  sessions := [{ id := 9, user := 2, title := "", created_at := 0, updated_at := 0 }]
  messages := []
  nextId := 10
  now := 5

/-- A fresh user message for session nine of the one-session fixture. -/
def c8Msg : ChatMessageRow where
  id := 1
  session := 9
  message_type := "user"
  content := "x"
  generated_sql := ""
  sql_result := ""
  created_at := 5

/-
Theorems.  First, helper characterizations of one engine run.
-/

/-- The final workflow state of `graph.invoke`: the question, the executed
query, its textual result, and the final answer, each present. -/
theorem SQLQuerySystem.graphInvoke_eq (o : LLMOracle) (q : String) :
    graphInvoke o q =
      { question := some q, query := some (executedQuery o q),
        sql_result := some (executedResult o q),
        answer := some (finalAnswer o q) } := by
  cases hq : o.genQuery q with
  | none =>
    cases he : o.execQuery "SELECT 1;" with
    | ok r =>
      cases ha : o.genAnswer q "SELECT 1;" r with
      | none =>
        simp [graphInvoke, initialState, write_query, execute_query,
          generate_answer, mergeUpdate, executedQuery, executedResult,
          finalAnswer, hq, he, ha]
      | some a =>
        simp [graphInvoke, initialState, write_query, execute_query,
          generate_answer, mergeUpdate, executedQuery, executedResult,
          finalAnswer, hq, he, ha]
    | error e =>
      cases ha : o.genAnswer q "SELECT 1;" ("Error executing query: " ++ e) with
      | none =>
        simp [graphInvoke, initialState, write_query, execute_query,
          generate_answer, mergeUpdate, executedQuery, executedResult,
          finalAnswer, hq, he, ha]
      | some a =>
        simp [graphInvoke, initialState, write_query, execute_query,
          generate_answer, mergeUpdate, executedQuery, executedResult,
          finalAnswer, hq, he, ha]
  | some sql =>
    cases he : o.execQuery sql with
    | ok r =>
      cases ha : o.genAnswer q sql r with
      | none =>
        simp [graphInvoke, initialState, write_query, execute_query,
          generate_answer, mergeUpdate, executedQuery, executedResult,
          finalAnswer, hq, he, ha]
      | some a =>
        simp [graphInvoke, initialState, write_query, execute_query,
          generate_answer, mergeUpdate, executedQuery, executedResult,
          finalAnswer, hq, he, ha]
    | error e =>
      cases ha : o.genAnswer q sql ("Error executing query: " ++ e) with
      | none =>
        simp [graphInvoke, initialState, write_query, execute_query,
          generate_answer, mergeUpdate, executedQuery, executedResult,
          finalAnswer, hq, he, ha]
      | some a =>
        simp [graphInvoke, initialState, write_query, execute_query,
          generate_answer, mergeUpdate, executedQuery, executedResult,
          finalAnswer, hq, he, ha]

/-- `query(question, stream=False)` as the four-field Python dict. -/
theorem SQLQuerySystem.query_false_eq (o : LLMOracle) (q : String) :
    SQLQuerySystem.query o q false =
      PyVal.dict [("question", .str q), ("query", .str (executedQuery o q)),
        ("sql_result", .str (executedResult o q)),
        ("answer", .str (finalAnswer o q))] := by
  show WorkflowState.toPy (graphInvoke o q) = _
  rw [graphInvoke_eq]
  rfl

/-- Key lookups on a four-field result dict. -/
theorem resultDict_get_question (q qv rv av : String) :
    (PyVal.dict [("question", .str q), ("query", .str qv),
      ("sql_result", .str rv), ("answer", .str av)]).get "question" =
      some (.str q) := rfl

theorem resultDict_get_query (q qv rv av : String) :
    (PyVal.dict [("question", .str q), ("query", .str qv),
      ("sql_result", .str rv), ("answer", .str av)]).get "query" =
      some (.str qv) := rfl

theorem resultDict_get_sql_result (q qv rv av : String) :
    (PyVal.dict [("question", .str q), ("query", .str qv),
      ("sql_result", .str rv), ("answer", .str av)]).get "sql_result" =
      some (.str rv) := rfl

theorem resultDict_get_answer (q qv rv av : String) :
    (PyVal.dict [("question", .str q), ("query", .str qv),
      ("sql_result", .str rv), ("answer", .str av)]).get "answer" =
      some (.str av) := rfl

/-- Claim C1 (amended): for every question and every behaviour of the
external calls, the linear engine completes and returns a state whose four
fields question, query, sql_result and answer are all populated; when the
SQL-generation stage fails the query field is the literal SELECT 1; when
SQL execution raises the sql_result field is the text
`Error executing query: ` followed by the message; when answer generation
fails the answer field is the fixed apology literal, which is non-empty.
(The original final clause of the claim, that the answer field is always
non-empty, holds in exactly these failure cases; in the success case the
answer is the reply content of the LLM, which the code does not check for
emptiness — see the counterexample.) -/
theorem C1_engine_fails_closed (o : LLMOracle) (question : String) :
    (SQLQuerySystem.query o question false).get "question" =
      some (.str question)
    ∧ (∃ v, (SQLQuerySystem.query o question false).get "query" =
        some (.str v))
    ∧ (∃ v, (SQLQuerySystem.query o question false).get "sql_result" =
        some (.str v))
    ∧ (∃ v, (SQLQuerySystem.query o question false).get "answer" =
        some (.str v))
    ∧ (o.genQuery question = none →
        (SQLQuerySystem.query o question false).get "query" =
          some (.str "SELECT 1;"))
    ∧ (∀ sql e,
        (SQLQuerySystem.query o question false).get "query" =
          some (.str sql) →
        o.execQuery sql = .error e →
        (SQLQuerySystem.query o question false).get "sql_result" =
          some (.str ("Error executing query: " ++ e)))
    ∧ (∀ sql r,
        (SQLQuerySystem.query o question false).get "query" =
          some (.str sql) →
        (SQLQuerySystem.query o question false).get "sql_result" =
          some (.str r) →
        o.genAnswer question sql r = none →
        (SQLQuerySystem.query o question false).get "answer" =
          some (.str SQLQuerySystem.apology)
        ∧ SQLQuerySystem.apology ≠ "") := by
  rw [SQLQuerySystem.query_false_eq, resultDict_get_question,
    resultDict_get_query, resultDict_get_sql_result, resultDict_get_answer]
  refine ⟨rfl, ⟨_, rfl⟩, ⟨_, rfl⟩, ⟨_, rfl⟩, ?_, ?_, ?_⟩
  · intro h
    simp [SQLQuerySystem.executedQuery, h]
  · intro sql e hsql hexec
    simp only [Option.some.injEq, PyVal.str.injEq] at hsql
    subst hsql
    simp [SQLQuerySystem.executedResult, hexec]
  · intro sql r hsql hres hans
    simp only [Option.some.injEq, PyVal.str.injEq] at hsql hres
    subst hsql
    subst hres
    constructor
    · simp [SQLQuerySystem.finalAnswer, hans]
    · decide

/-- Witness for C1: in the world where every external call fails, the
query, result and answer fields carry exactly the three fallback values. -/
theorem C1_engine_fails_closed_witness :
    (SQLQuerySystem.query failOracle "q" false).get "query" =
      some (.str "SELECT 1;")
    ∧ (SQLQuerySystem.query failOracle "q" false).get "sql_result" =
      some (.str ("Error executing query: " ++ "boom"))
    ∧ (SQLQuerySystem.query failOracle "q" false).get "answer" =
      some (.str SQLQuerySystem.apology) := by
  obtain ⟨h1, h2, h3, h4, h5, h6, h7⟩ := C1_engine_fails_closed failOracle "q"
  have hquery := h5 rfl
  have hsql := h6 "SELECT 1;" "boom" hquery rfl
  exact ⟨hquery, hsql,
    (h7 "SELECT 1;" ("Error executing query: " ++ "boom") hquery hsql rfl).1⟩

/-- Counterexample to C1 as stated: when every external call succeeds but
the reply content of the LLM is the empty string, the final answer field is
populated with the empty string, so the answer field is not always
non-empty. -/
theorem C1_empty_answer_counterexample :
    (SQLQuerySystem.query emptyReplyOracle "q" false).get "answer" =
      some (PyVal.str "") := rfl

/-- Claim C6 (code bug): evaluated in a world where every external call
succeeds, the streaming variant of the engine's query operation does not
return the four-field final state: iterating the updates-mode stream leaves
the last yielded step, the dict mapping the generate_answer node name to
its one-field update, and that is what is returned — the question, query
and sql_result fields promised by the claim (and by the method's own
docstring) are absent. -/
theorem C6_stream_returns_last_update :
    SQLQuerySystem.query okOracle "q" true =
      PyVal.dict [("generate_answer", PyVal.dict [("answer", PyVal.str "ans")])]
    ∧ SQLQuerySystem.query okOracle "q" false =
      PyVal.dict [("question", .str "q"), ("query", .str "SELECT 1;"),
        ("sql_result", .str "result"), ("answer", .str "ans")]
    ∧ (SQLQuerySystem.query okOracle "q" true).get "question" = Option.none
    ∧ (SQLQuerySystem.query okOracle "q" true).get "query" = Option.none
    ∧ (SQLQuerySystem.query okOracle "q" true).get "sql_result" = Option.none
    ∧ (SQLQuerySystem.query okOracle "q" false).get "question" =
        some (PyVal.str "q") :=
  ⟨rfl, rfl, rfl, rfl, rfl, rfl⟩

/-- Claim C2 (confirmed): over the stored messages of a session in
chronological order (whose types are user or assistant), the text built for
the answering engine is the raw incoming message when there are no prior
messages, and otherwise the context header, one `<role>: <content>` line
per message for only the most recent twenty (oldest first, role Human for
user messages and Assistant for assistant messages), an empty line, the
current-question header, and the raw message, joined by newlines. -/
theorem C2_history_formatting (db : ChatDb) (sid : Nat) (current : String)
    (htypes : ∀ m ∈ db.messages, m.session = sid →
      m.message_type = "user" ∨ m.message_type = "assistant") :
    ProcessChatMessageView.formatMessageWithHistory current
        (ProcessChatMessageView.getConversationHistory db sid) =
      (if (db.messages.filter (fun m => m.session == sid)) = [] then current
       else
        String.intercalate "\n"
          ("Previous conversation context:" ::
            (((db.messages.filter (fun m => m.session == sid)).drop
                ((db.messages.filter (fun m => m.session == sid)).length - 20)).map
              (fun m =>
                (if m.message_type = "user" then "Human"
                 else if m.message_type = "assistant" then "Assistant"
                 else "") ++ ": " ++ m.content)
            ++ ["", "Current question:", current]))) := by
  have hmem : ∀ m ∈ (db.messages.filter (fun m => m.session == sid)).drop
      ((db.messages.filter (fun m => m.session == sid)).length - 20),
      m.message_type = "user" ∨ m.message_type = "assistant" := by
    intro m hm
    have hm2 := List.drop_subset _ _ hm
    have hm3 := List.mem_filter.mp hm2
    exact htypes m hm3.1 (by simpa using hm3.2)
  unfold ProcessChatMessageView.formatMessageWithHistory
    ProcessChatMessageView.getConversationHistory
  rcases hfe : db.messages.filter (fun m => m.session == sid) with _ | ⟨ms, rest⟩
  · simp [hfe]
  · rw [hfe] at hmem ⊢
    rw [if_neg (by simp)]
    rw [if_neg (by simp)]
    have h1 : ((ms :: rest).map (fun m =>
        ({ role := if m.message_type == "user" then "Human" else "Assistant",
           content := m.content } : HistEntry))).drop
          (((ms :: rest).map (fun m =>
            ({ role := if m.message_type == "user" then "Human" else "Assistant",
               content := m.content } : HistEntry))).length - 20) =
        ((ms :: rest).drop ((ms :: rest).length - 20)).map (fun m =>
          ({ role := if m.message_type == "user" then "Human" else "Assistant",
             content := m.content } : HistEntry)) := by
      rw [List.length_map, List.map_drop]
    simp only [h1, List.map_map]
    have h2 : ((ms :: rest).drop ((ms :: rest).length - 20)).map
        ((fun m => m.role ++ ": " ++ m.content) ∘ (fun m =>
          ({ role := if m.message_type == "user" then "Human" else "Assistant",
             content := m.content } : HistEntry))) =
        ((ms :: rest).drop ((ms :: rest).length - 20)).map (fun m =>
          (if m.message_type = "user" then "Human"
           else if m.message_type = "assistant" then "Assistant"
           else "") ++ ": " ++ m.content) := by
      refine List.map_congr_left ?_
      intro m hm
      rcases hmem m hm with h | h <;> simp [h]
    simp only [h2]
    rfl

/-- Witness for C2: on the two-message fixture the formatted text is the
header, the two role-prefixed lines, a blank line, the current-question
header and the message. -/
theorem C2_history_formatting_witness :
    (∀ m ∈ c2Db.messages, m.session = 7 →
      m.message_type = "user" ∨ m.message_type = "assistant")
    ∧ ProcessChatMessageView.formatMessageWithHistory "cur"
        (ProcessChatMessageView.getConversationHistory c2Db 7) =
      "Previous conversation context:\nHuman: hello\nAssistant: hi\n\nCurrent question:\ncur" := by
  refine ⟨by decide, ?_⟩
  rw [C2_history_formatting c2Db 7 "cur" (by decide)]
  rfl

/-- Claim C3 (confirmed): for an authenticated caller and a chat session
that exists but is owned by another user, the session-detail view and the
process-chat-message endpoint both answer not-found, returning none of the
session or message data and leaving the store unchanged; and a process
request without an identifier creates a fresh session owned by the caller
and responds with the created-new-chat flag set. -/
theorem C3_session_ownership (db : ChatDb) (caller : Nat) (s : ChatSessionRow)
    (o : LLMOracle)
    (hnodup : (db.sessions.map (fun t => t.id)).Nodup)
    (hs : s ∈ db.sessions) (howner : s.user ≠ caller) :
    ChatSessionDetailView.retrieve db caller s.id = none
    ∧ (∀ m : String, m ≠ "" →
        ProcessChatMessageView.post o caller
          { chat_id := .val s.id, message := .str m } db =
          (.notFound "Chat session not found", db, false))
    ∧ (∀ m : String, m ≠ "" →
        ∃ r db2,
          ProcessChatMessageView.post o caller
            { chat_id := .absent, message := .str m } db = (.ok r, db2, true)
          ∧ r.created_new_chat = true
          ∧ ∃ s2 ∈ db2.sessions, s2.id = r.chat_id ∧ s2.user = caller) := by
  have hinj := List.inj_on_of_nodup_map hnodup
  refine ⟨?_, ?_, ?_⟩
  · unfold ChatSessionDetailView.retrieve
    have hnone : (db.sessions.filter (fun t => t.user == caller)).find?
        (fun t => t.id == s.id) = none := by
      rw [List.find?_eq_none]
      intro t ht
      have ht2 := List.mem_filter.mp ht
      intro hid
      have : t = s := hinj ht2.1 hs (by simpa using hid)
      subst this
      exact howner (by simpa using ht2.2)
    rw [hnone]
  · intro m hm
    have hval : ChatProcessRequestSerializer.validate
        { chat_id := .val s.id, message := .str m } =
        .ok { chat_id := some s.id, message := m } := by
      simp [ChatProcessRequestSerializer.validate,
        ChatProcessRequestSerializer.validateChatId,
        ChatProcessRequestSerializer.validateMessage, hm]
      rfl
    have hfind : db.sessions.find?
        (fun t => t.id == s.id && t.user == caller) = none := by
      rw [List.find?_eq_none]
      intro t ht hcond
      have hcond2 := Bool.and_eq_true_iff.mp hcond
      have : t = s := hinj ht hs (by simpa using hcond2.1)
      subst this
      exact howner (by simpa using hcond2.2)
    have hgoc : ProcessChatMessageView.getOrCreateChatSession (some s.id)
        caller db = .error "Chat session not found" := by
      simp [ProcessChatMessageView.getOrCreateChatSession, hfind]
    simp [ProcessChatMessageView.post, hval, hgoc]
  · intro m hm
    have hval : ChatProcessRequestSerializer.validate
        { chat_id := .absent, message := .str m } =
        .ok { chat_id := none, message := m } := by
      simp [ChatProcessRequestSerializer.validate,
        ChatProcessRequestSerializer.validateChatId,
        ChatProcessRequestSerializer.validateMessage, hm]
      rfl
    simp only [ProcessChatMessageView.post, hval,
      ProcessChatMessageView.getOrCreateChatSession, ChatMessage.save,
      ProcessChatMessageView.setSessionTitle]
    refine ⟨_, _, rfl, rfl, ?_⟩
    simp only [List.map_append, List.map_cons, List.map_nil]
    refine ⟨_, List.mem_append_right _ (List.mem_cons_self _ _), ?_, ?_⟩
    · simp
    · simp

/-- Witness for C3: on the one-session fixture, caller one asking for
session nine (owned by user two) gets not-found from both endpoints, and a
request without an identifier creates a session of their own. -/
theorem C3_session_ownership_witness :
    ChatSessionDetailView.retrieve c3Db 1 9 = none
    ∧ ProcessChatMessageView.post okOracle 1
        { chat_id := .val 9, message := .str "hi" } c3Db =
        (.notFound "Chat session not found", c3Db, false)
    ∧ ∃ r db2, ProcessChatMessageView.post okOracle 1
          { chat_id := .absent, message := .str "hi" } c3Db = (.ok r, db2, true)
        ∧ r.created_new_chat = true
        ∧ ∃ s2 ∈ db2.sessions, s2.id = r.chat_id ∧ s2.user = 1 := by
  obtain ⟨h1, h2, h3⟩ := C3_session_ownership c3Db 1
    { id := 9, user := 2, title := "", created_at := 0, updated_at := 0 }
    okOracle (by decide) (by decide) (by decide)
  exact ⟨h1, h2 "hi" (by decide), h3 "hi" (by decide)⟩

/-- Claim C4 (confirmed): seeding twice without the clear flag leaves
exactly the rows of seeding once — every entity is created only when its
natural key (slug, slug, SKU) is absent — and the result holds exactly
three categories, eleven brands and thirty products, with no duplicate
slugs and no duplicate SKUs. -/
theorem C4_seed_idempotent :
    SeedProducts.handle false (SeedProducts.handle false SeedProducts.emptyCatalog) =
      SeedProducts.handle false SeedProducts.emptyCatalog
    ∧ (SeedProducts.handle false SeedProducts.emptyCatalog).categories.length = 3
    ∧ (SeedProducts.handle false SeedProducts.emptyCatalog).brands.length = 11
    ∧ (SeedProducts.handle false SeedProducts.emptyCatalog).products.length = 30
    ∧ ((SeedProducts.handle false SeedProducts.emptyCatalog).categories.map
        (fun c => c.slug)).Nodup
    ∧ ((SeedProducts.handle false SeedProducts.emptyCatalog).brands.map
        (fun b => b.slug)).Nodup
    ∧ ((SeedProducts.handle false SeedProducts.emptyCatalog).products.map
        (fun p => p.sku)).Nodup := by
  refine ⟨rfl, rfl, rfl, rfl, ?_, ?_, ?_⟩ <;> decide

/-- The excellent level of the rating filter keeps exactly the ratings at
least 4.5. -/
theorem ratingLevelMatches_excellent (r : ℚ) :
    ratingLevelMatches "excellent" r ↔ 4.5 ≤ r := by
  unfold ratingLevelMatches RatingFilter.queryset probeProduct
  by_cases h : (4.5 : ℚ) ≤ r <;> simp [List.filter_cons, h]

/-- The good level keeps exactly the ratings in [3.5, 4.5). -/
theorem ratingLevelMatches_good (r : ℚ) :
    ratingLevelMatches "good" r ↔ 3.5 ≤ r ∧ r < 4.5 := by
  unfold ratingLevelMatches RatingFilter.queryset probeProduct
  by_cases h1 : (3.5 : ℚ) ≤ r <;> by_cases h2 : r < (4.5 : ℚ) <;>
    simp [List.filter_cons, h1, h2]

/-- The average level keeps exactly the ratings in [2.5, 3.5). -/
theorem ratingLevelMatches_average (r : ℚ) :
    ratingLevelMatches "average" r ↔ 2.5 ≤ r ∧ r < 3.5 := by
  unfold ratingLevelMatches RatingFilter.queryset probeProduct
  by_cases h1 : (2.5 : ℚ) ≤ r <;> by_cases h2 : r < (3.5 : ℚ) <;>
    simp [List.filter_cons, h1, h2]

/-- The poor level keeps exactly the ratings in (0, 2.5). -/
theorem ratingLevelMatches_poor (r : ℚ) :
    ratingLevelMatches "poor" r ↔ 0 < r ∧ r < 2.5 := by
  unfold ratingLevelMatches RatingFilter.queryset probeProduct
  by_cases h1 : (0 : ℚ) < r <;> by_cases h2 : r < (2.5 : ℚ) <;>
    simp [List.filter_cons, h1, h2]

/-- The unrated level keeps exactly the ratings equal to zero. -/
theorem ratingLevelMatches_unrated (r : ℚ) :
    ratingLevelMatches "unrated" r ↔ r = 0 := by
  unfold ratingLevelMatches RatingFilter.queryset probeProduct
  by_cases h : r = (0 : ℚ) <;> simp [List.filter_cons, h]

/-- Claim C5 (confirmed): the admin rating-level filter classifies a rating
of exactly 4.5 as excellent, exactly 3.5 as good and not excellent, exactly
2.5 as average and not good, zero as unrated and not poor, and every rating
strictly between zero and 2.5 as poor. -/
theorem C5_rating_filter_levels :
    ratingLevelMatches "excellent" 4.5
    ∧ ratingLevelMatches "good" 3.5
    ∧ ¬ ratingLevelMatches "excellent" 3.5
    ∧ ratingLevelMatches "average" 2.5
    ∧ ¬ ratingLevelMatches "good" 2.5
    ∧ ratingLevelMatches "unrated" 0
    ∧ ¬ ratingLevelMatches "poor" 0
    ∧ ∀ r : ℚ, 0 < r → r < 2.5 → ratingLevelMatches "poor" r := by
  refine ⟨?_, ?_, ?_, ?_, ?_, ?_, ?_, ?_⟩
  · rw [ratingLevelMatches_excellent]
  · rw [ratingLevelMatches_good]
    norm_num
  · rw [ratingLevelMatches_excellent]
    norm_num
  · rw [ratingLevelMatches_average]
    norm_num
  · rw [ratingLevelMatches_good]
    norm_num
  · rw [ratingLevelMatches_unrated]
  · rw [ratingLevelMatches_poor]
    norm_num
  · intro r h1 h2
    rw [ratingLevelMatches_poor]
    exact ⟨h1, h2⟩

/-- Witness for C5: the rating one, strictly between zero and 2.5, is
classified poor. -/
theorem C5_rating_filter_levels_witness : ratingLevelMatches "poor" 1 :=
  C5_rating_filter_levels.2.2.2.2.2.2.2 1 (by norm_num) (by norm_num)

/-- Claim C7 (confirmed): a validated write of a product whose rating lies
outside [0, 5] is rejected by the declared rating validators, and an
accepted write into a store of in-range products leaves every persisted
rating in [0, 5]. -/
theorem C7_rating_bounds (db : List ProductRow) (p : ProductRow)
    (hdb : ∀ q ∈ db, 0 ≤ q.rating ∧ q.rating ≤ 5) :
    (p.rating < 0 ∨ 5 < p.rating →
      ∃ e, Product.validatedSave db p = .error e)
    ∧ ∀ db2, Product.validatedSave db p = .ok db2 →
        ∀ q ∈ db2, 0 ≤ q.rating ∧ q.rating ≤ 5 := by
  constructor
  · intro h
    unfold Product.validatedSave Product.validateRating
    rcases h with h | h
    · rw [if_pos h]
      exact ⟨_, rfl⟩
    · rw [if_neg (by linarith), if_pos h]
      exact ⟨_, rfl⟩
  · intro db2 hok q hq
    unfold Product.validatedSave Product.validateRating at hok
    by_cases h1 : p.rating < 0
    · rw [if_pos h1] at hok
      exact absurd hok (by simp)
    · rw [if_neg h1] at hok
      by_cases h2 : 5 < p.rating
      · rw [if_pos h2] at hok
        exact absurd hok (by simp)
      · rw [if_neg h2] at hok
        simp only [Except.ok.injEq] at hok
        subst hok
        rcases List.mem_append.mp hq with hq2 | hq2
        · exact hdb q hq2
        · have hqp : q = p := List.mem_singleton.mp hq2
          subst hqp
          exact ⟨not_lt.mp h1, not_lt.mp h2⟩

/-- Witness for C7: writing a product rated six into the empty store is
rejected, and the preservation clause applies to that store. -/
theorem C7_rating_bounds_witness :
    (∃ e, Product.validatedSave [] (probeProduct 6) = .error e)
    ∧ ∀ db2, Product.validatedSave [] (probeProduct 6) = .ok db2 →
        ∀ q ∈ db2, 0 ≤ q.rating ∧ q.rating ≤ 5 := by
  obtain ⟨h1, h2⟩ := C7_rating_bounds [] (probeProduct 6) (by simp)
  exact ⟨h1 (Or.inr (by norm_num [probeProduct])), h2⟩

/-- Claim C8 (confirmed): every save of a chat message (a creation or a
later update alike) re-stamps the parent session updated-timestamp to the
current time, leaves every other session row unchanged, and the default
session ordering lists sessions by descending updated-timestamp (so it
reflects the latest message save, not session creation time). -/
theorem C8_message_save_restamps (db : ChatDb) (msg : ChatMessageRow)
    (now : Nat) :
    (∀ s ∈ (ChatMessage.save msg now db).sessions, s.id = msg.session →
      s.updated_at = now)
    ∧ (∀ s ∈ (ChatMessage.save msg now db).sessions, s.id ≠ msg.session →
        s ∈ db.sessions)
    ∧ List.Pairwise (fun a b => b.updated_at ≤ a.updated_at)
        (ChatSession.defaultOrdering (ChatMessage.save msg now db).sessions)
    ∧ (ChatSession.defaultOrdering (ChatMessage.save msg now db).sessions).Perm
        (ChatMessage.save msg now db).sessions := by
  refine ⟨?_, ?_, ?_, ?_⟩
  · intro s hs hsid
    obtain ⟨t, ht, hts⟩ := List.mem_map.mp hs
    by_cases hid : t.id == msg.session
    · rw [if_pos hid] at hts
      rw [← hts]
    · rw [if_neg hid] at hts
      subst hts
      exact absurd hsid (by simpa using hid)
  · intro s hs hsid
    obtain ⟨t, ht, hts⟩ := List.mem_map.mp hs
    by_cases hid : t.id == msg.session
    · rw [if_pos hid] at hts
      subst hts
      exact absurd (by simpa using hid) hsid
    · rw [if_neg hid] at hts
      subst hts
      exact ht
  · have h := @List.sorted_mergeSort ChatSessionRow
      (fun a b => decide (b.updated_at ≤ a.updated_at))
      (fun a b c hab hbc => by
        simp only [decide_eq_true_eq] at hab hbc ⊢
        omega)
      (fun a b => by
        simp only [Bool.or_eq_true, decide_eq_true_eq]
        omega)
      (ChatMessage.save msg now db).sessions
    exact h.imp (fun hab => by simpa using hab)
  · exact List.mergeSort_perm _ _

/-- Witness for C8: saving a fresh user message into session nine of the
fixture at time five re-stamps that session to five. -/
theorem C8_message_save_restamps_witness :
    ∃ s ∈ (ChatMessage.save c8Msg 5 c3Db).sessions,
      s.id = 9 ∧ s.updated_at = 5 := by
  obtain ⟨h1, h2, h3, h4⟩ := C8_message_save_restamps c3Db c8Msg 5
  refine ⟨{ id := 9, user := 2, title := "", created_at := 0, updated_at := 5 },
    by decide, rfl, ?_⟩
  exact h1 _ (by decide) rfl

/-- Claim C9 (confirmed): a process request whose chat_id is explicitly
null passes validation and behaves exactly like one that omits chat_id, and
(for a non-blank message) creates a fresh session owned by the caller with
the created-new-chat flag set. -/
theorem C9_null_chat_id (o : LLMOracle) (user : Nat) (db : ChatDb)
    (msg : RawCharField) :
    ProcessChatMessageView.post o user { chat_id := .null, message := msg } db =
      ProcessChatMessageView.post o user { chat_id := .absent, message := msg } db
    ∧ (∀ m : String, m ≠ "" →
        ∃ r db2, ProcessChatMessageView.post o user
            { chat_id := .null, message := .str m } db = (.ok r, db2, true)
          ∧ r.created_new_chat = true
          ∧ ∃ s2 ∈ db2.sessions, s2.id = r.chat_id ∧ s2.user = user) := by
  refine ⟨rfl, ?_⟩
  intro m hm
  have hval : ChatProcessRequestSerializer.validate
      { chat_id := .null, message := .str m } =
      .ok { chat_id := none, message := m } := by
    simp [ChatProcessRequestSerializer.validate,
      ChatProcessRequestSerializer.validateChatId,
      ChatProcessRequestSerializer.validateMessage, hm]
    rfl
  simp only [ProcessChatMessageView.post, hval,
    ProcessChatMessageView.getOrCreateChatSession, ChatMessage.save,
    ProcessChatMessageView.setSessionTitle]
  refine ⟨_, _, rfl, rfl, ?_⟩
  simp only [List.map_append, List.map_cons, List.map_nil]
  refine ⟨_, List.mem_append_right _ (List.mem_cons_self _ _), ?_, ?_⟩
  · simp
  · simp

/-- Witness for C9: on the one-session fixture, caller one sending the
message hi with a null chat_id gets a newly created session of their own. -/
theorem C9_null_chat_id_witness :
    ∃ r db2, ProcessChatMessageView.post okOracle 1
        { chat_id := .null, message := .str "hi" } c3Db = (.ok r, db2, true)
      ∧ r.created_new_chat = true
      ∧ ∃ s2 ∈ db2.sessions, s2.id = r.chat_id ∧ s2.user = 1 := by
  obtain ⟨h1, h2⟩ := C9_null_chat_id okOracle 1 c3Db (.str "hi")
  exact h2 "hi" (by decide)

/-- Claim C10 (confirmed): a process request whose message is the empty
string is rejected by validation with a client error before anything
happens — the store is unchanged (no session, no message row) and the LLM
engine is never invoked — whatever the chat_id field holds. -/
theorem C10_blank_message_rejected (o : LLMOracle) (user : Nat) (db : ChatDb)
    (cid : RawUUIDField) :
    ProcessChatMessageView.post o user
      { chat_id := cid, message := .str "" } db = (.badRequest, db, false) := by
  cases cid <;> rfl
